import Mathlib

/-!
Shallow embedding of the site configuration module of `josestg/josestg.io`
(file `src/data/siteMetadata.js`) and proofs of the specified properties.

The module is a single declarative JavaScript object, four of whose leaves
are read from the process environment (`process.env.NEXT_PUBLIC_GISCUS_*`).
We embed JavaScript objects as a key/value tree (`Value`), the process
environment as a total map from variable names to optional strings, and the
module itself as a total Lean function from environments to `Value`,
mirroring the source object literal field for field.
-/

/-- A JavaScript value as it occurs in the configuration module: a string
literal, the `undefined` value (what `process.env.X` evaluates to when the
variable `X` is absent), or an object with an ordered list of string keys. -/
inductive Value where
  | str : String → Value
  | undef : Value
  | obj : List (String × Value) → Value

/-- The process environment: a total map from variable names to an optional
string value (`none` means the variable is unset). -/
def Env : Type := String → Option String

/-- The environment with no variables set. -/
def emptyEnv : Env := fun _ => none

/-- Embedding of the JavaScript expression `process.env.k`: property access
on the environment object never throws; it yields the string value when the
variable is set and `undefined` otherwise. -/
def envAccess (env : Env) (k : String) : Value :=
  match env k with
  | some s => Value.str s
  | none => Value.undef

/-- Embedding of the object literal bound to `siteMetadata` in
`src/data/siteMetadata.js`, field for field in source order.  The four
giscus fields are the only sub-expressions that read the environment. -/
def siteMetadata (env : Env) : Value :=
  Value.obj [
    ("title", Value.str "josestg.io"),
    ("author", Value.str "Jose Sitanggang"),
    ("headerTitle", Value.str "josestg.io"),
    ("description", Value.str "My thoughts on software engineering and computer science"),
    ("language", Value.str "en-us"),
    ("theme", Value.str "system"),
    ("siteUrl", Value.str "https://josestg.io"),
    ("siteRepo", Value.str "https://github.com/josestg/josestg.io"),
    ("siteLogo", Value.str "/static/images/logo.svg"),
    ("socialBanner", Value.str "/static/images/twitter-card.png"),
    ("email", Value.str "josealfredositanggang@gmail.com"),
    ("github", Value.str "https://github.com/josestg"),
    ("twitter", Value.str "https://twitter.com/@_josestg"),
    ("youtube", Value.str "https://youtube.com/@josestg"),
    ("linkedin", Value.str "https://www.linkedin.com/in/josestg/"),
    ("threads", Value.str "https://threads.net/@_josestg"),
    ("locale", Value.str "en-US"),
    ("analytics", Value.obj [
      ("googleAnalytics", Value.obj [
        ("googleAnalyticsId", Value.str "G-7LG3NNV50C")])]),
    ("comments", Value.obj [
      ("provider", Value.str "giscus"),
      ("giscusConfig", Value.obj [
        ("repo", envAccess env "NEXT_PUBLIC_GISCUS_REPO"),
        ("repositoryId", envAccess env "NEXT_PUBLIC_GISCUS_REPOSITORY_ID"),
        ("category", envAccess env "NEXT_PUBLIC_GISCUS_CATEGORY"),
        ("categoryId", envAccess env "NEXT_PUBLIC_GISCUS_CATEGORY_ID"),
        ("mapping", Value.str "pathname"),
        ("reactions", Value.str "1"),
        ("metadata", Value.str "0"),
        ("theme", Value.str "light"),
        ("darkTheme", Value.str "transparent_dark"),
        ("themeURL", Value.str ""),
        ("lang", Value.str "en")])]),
    ("search", Value.obj [
      ("provider", Value.str "kbar"),
      ("kbarConfig", Value.obj [
        ("searchDocumentsPath", Value.str "search.json")])]),
    ("newsletter", Value.obj [
      ("provider", Value.str "mailchimp")])]

/-- Property access `v[k]` on a value: the entry of an object under key `k`,
and `undefined` when the key is absent or the value is not an object. -/
def getKey (v : Value) (k : String) : Value :=
  match v with
  | Value.obj fields =>
      match fields.find? (fun p => p.1 == k) with
      | some p => p.2
      | none => Value.undef
  | _ => Value.undef

/-- Chained property access along a key path. -/
def getPath (v : Value) : List String → Value
  | [] => v
  | k :: ks => getPath (getKey v k) ks

/-- The list of top-level keys of an object value (empty for non-objects). -/
def topLevelKeys (v : Value) : List String :=
  match v with
  | Value.obj fields => fields.map Prod.fst
  | _ => []

/-- Replace the entry under key `k` of an object (no change when the key is
absent or the value is not an object). -/
def setKey (v : Value) (k : String) (nv : Value) : Value :=
  match v with
  | Value.obj fields =>
      Value.obj (fields.map (fun p => if p.1 == k then (p.1, nv) else p))
  | _ => v

/-- Replace the value at a key path. -/
def setPath (v : Value) : List String → Value → Value
  | [], nv => nv
  | k :: ks, nv => setKey v k (setPath (getKey v k) ks nv)

/-- The four key paths of the configuration that depend on the environment. -/
def giscusEnvPaths : List (List String) :=
  [["comments", "giscusConfig", "repo"],
   ["comments", "giscusConfig", "repositoryId"],
   ["comments", "giscusConfig", "category"],
   ["comments", "giscusConfig", "categoryId"]]

/-- Overwrite the four environment-dependent giscus fields with `undefined`,
leaving every other field of the record untouched. -/
def scrubGiscus (v : Value) : Value :=
  giscusEnvPaths.foldl (fun acc p => setPath acc p Value.undef) v

/-- The Node module cache entry for the configuration module: `require`
evaluates the module body at most once and caches `module.exports`. -/
structure ModuleCache where
  cached : Option Value

/-- Embedding of `require("./siteMetadata")` under Node module semantics:
return the cached exports when present, otherwise evaluate the object
literal once and cache the result. -/
def requireSiteMetadata (env : Env) (c : ModuleCache) : Value × ModuleCache :=
  match c.cached with
  | some v => (v, c)
  | none =>
      let v := siteMetadata env
      (v, { cached := some v })

/-- The top-level key set the specification enumerates as the configuration
contract.  Modelled from the spec: "title, author, siteUrl, socialBanner,
social-profile URLs, analytics, comments, search, newsletter", reading the
social-profile URLs as the five profile links present in the record. -/
def specClaimedTopLevelKeys : List String :=
  ["title", "author", "siteUrl", "socialBanner",
   "github", "twitter", "youtube", "linkedin", "threads",
   "analytics", "comments", "search", "newsletter"]

/-- The actual top-level keys of the configuration record, in source order. -/
def actualTopLevelKeys : List String :=
  ["title", "author", "headerTitle", "description", "language", "theme",
   "siteUrl", "siteRepo", "siteLogo", "socialBanner", "email", "github",
   "twitter", "youtube", "linkedin", "threads", "locale", "analytics",
   "comments", "search", "newsletter"]

/-- A concrete environment with the giscus repo variable set and nothing
else; used as a witness input. -/
def envA : Env := fun k =>
  if k = "NEXT_PUBLIC_GISCUS_REPO" then some "josestg/josestg.io" else none

/-- A concrete environment agreeing with `envA` on the four giscus
variables but differing on an unrelated variable; used as a witness input. -/
def envB : Env := fun k =>
  if k = "NEXT_PUBLIC_GISCUS_REPO" then some "josestg/josestg.io"
  else if k = "HOME" then some "/root" else none

/-- A concrete environment setting the giscus repo variable to the empty
string; used as a witness input. -/
def envEmptyStr : Env := fun k =>
  if k = "NEXT_PUBLIC_GISCUS_REPO" then some "" else none

/-- Claim C1: when the giscus comments-repository environment variable
NEXT_PUBLIC_GISCUS_REPO is unset, loading the configuration succeeds (it
yields a well-formed object) and the comments.giscusConfig.repo field is
the undefined value, with no fallback substituted. -/
theorem giscus_repo_undefined_when_unset (env : Env)
    (h : env "NEXT_PUBLIC_GISCUS_REPO" = none) :
    getPath (siteMetadata env) ["comments", "giscusConfig", "repo"] = Value.undef ∧
    ∃ fields, siteMetadata env = Value.obj fields := by
  refine ⟨?_, _, rfl⟩
  have e : getPath (siteMetadata env) ["comments", "giscusConfig", "repo"]
      = envAccess env "NEXT_PUBLIC_GISCUS_REPO" := rfl
  rw [e]
  unfold envAccess
  rw [h]

/-- Witness for claim C1 at the concrete empty environment. -/
theorem giscus_repo_undefined_when_unset_witness :
    emptyEnv "NEXT_PUBLIC_GISCUS_REPO" = none ∧
    (getPath (siteMetadata emptyEnv) ["comments", "giscusConfig", "repo"] = Value.undef ∧
     ∃ fields, siteMetadata emptyEnv = Value.obj fields) :=
  ⟨rfl, giscus_repo_undefined_when_unset emptyEnv rfl⟩

/-- Claim C2: loading the configuration is total over the process
environment: for every environment, including any in which giscus
variables are absent, the load produces a well-formed object with all 21
top-level fields and never fails. -/
theorem siteMetadata_load_total (env : Env) :
    ∃ fields, siteMetadata env = Value.obj fields ∧ fields.length = 21 :=
  ⟨_, rfl, rfl⟩

/-- Claim C3: loading is deterministic and idempotent: under Node module
caching, a second load in the same environment returns a record identical
to the first, and the first load is exactly the declared object. -/
theorem siteMetadata_load_idempotent (env : Env) :
    (requireSiteMetadata env (requireSiteMetadata env (ModuleCache.mk none)).2).1
      = (requireSiteMetadata env (ModuleCache.mk none)).1 ∧
    (requireSiteMetadata env (ModuleCache.mk none)).1 = siteMetadata env :=
  ⟨rfl, rfl⟩

/-- Claim C4 counterexample: at the concrete empty environment the key path
analytics.googleAnalyticsId holds the undefined value, not the Google
Analytics identifier, so the identifier is not reachable there. -/
theorem analyticsId_not_at_flat_path :
    getPath (siteMetadata emptyEnv) ["analytics", "googleAnalyticsId"] = Value.undef ∧
    Value.undef ≠ Value.str "G-7LG3NNV50C" :=
  ⟨rfl, fun h => Value.noConfusion h⟩

/-- Claim C4 amended: the Google Analytics identifier is reachable at the
key path analytics.googleAnalytics.googleAnalyticsId of the loaded record,
for every environment. -/
theorem analyticsId_at_nested_path (env : Env) :
    getPath (siteMetadata env) ["analytics", "googleAnalytics", "googleAnalyticsId"]
      = Value.str "G-7LG3NNV50C" := rfl

/-- Claim C5 counterexample: the loaded record has the top-level key
headerTitle, which is not among the keys the specification enumerates, so
the top-level key set does not equal the enumerated set. -/
theorem topLevelKeys_exceed_spec_enumeration :
    "headerTitle" ∈ topLevelKeys (siteMetadata emptyEnv) ∧
    "headerTitle" ∉ specClaimedTopLevelKeys := by
  decide

/-- Claim C5 amended: for every environment, the loaded record's top-level
keys are exactly title, author, headerTitle, description, language, theme,
siteUrl, siteRepo, siteLogo, socialBanner, email, github, twitter, youtube,
linkedin, threads, locale, analytics, comments, search, newsletter, in that
order. -/
theorem topLevelKeys_eq_actual (env : Env) :
    topLevelKeys (siteMetadata env) = actualTopLevelKeys := rfl

/-- Claim C6: the loaded record depends only on the four giscus
environment variables: any two environments agreeing on them yield
identical records. -/
theorem siteMetadata_depends_only_on_giscus_vars (e1 e2 : Env)
    (h1 : e1 "NEXT_PUBLIC_GISCUS_REPO" = e2 "NEXT_PUBLIC_GISCUS_REPO")
    (h2 : e1 "NEXT_PUBLIC_GISCUS_REPOSITORY_ID" = e2 "NEXT_PUBLIC_GISCUS_REPOSITORY_ID")
    (h3 : e1 "NEXT_PUBLIC_GISCUS_CATEGORY" = e2 "NEXT_PUBLIC_GISCUS_CATEGORY")
    (h4 : e1 "NEXT_PUBLIC_GISCUS_CATEGORY_ID" = e2 "NEXT_PUBLIC_GISCUS_CATEGORY_ID") :
    siteMetadata e1 = siteMetadata e2 := by
  simp only [siteMetadata, envAccess, h1, h2, h3, h4]

/-- Witness for claim C6: two concrete environments agreeing on the four
giscus variables but differing on HOME yield identical records. -/
theorem siteMetadata_depends_only_on_giscus_vars_witness :
    envA "NEXT_PUBLIC_GISCUS_REPO" = envB "NEXT_PUBLIC_GISCUS_REPO" ∧
    envA "NEXT_PUBLIC_GISCUS_REPOSITORY_ID" = envB "NEXT_PUBLIC_GISCUS_REPOSITORY_ID" ∧
    envA "NEXT_PUBLIC_GISCUS_CATEGORY" = envB "NEXT_PUBLIC_GISCUS_CATEGORY" ∧
    envA "NEXT_PUBLIC_GISCUS_CATEGORY_ID" = envB "NEXT_PUBLIC_GISCUS_CATEGORY_ID" ∧
    envA "HOME" ≠ envB "HOME" ∧
    siteMetadata envA = siteMetadata envB :=
  ⟨rfl, rfl, rfl, rfl, by decide,
   siteMetadata_depends_only_on_giscus_vars envA envB rfl rfl rfl rfl⟩

/-- Claim C7: the record is write-once/read-many: a fresh load evaluates
the declaration once and only fills the module cache; once cached, a later
load returns the cached record and leaves all state unchanged; and every
read of a field of the loaded record yields the value established at load
time. -/
theorem siteMetadata_write_once (env : Env) :
    ((requireSiteMetadata env (ModuleCache.mk none)).1 = siteMetadata env ∧
     (requireSiteMetadata env (ModuleCache.mk none)).2
        = ModuleCache.mk (some (siteMetadata env))) ∧
    (∀ v : Value,
      requireSiteMetadata env (ModuleCache.mk (some v)) = (v, ModuleCache.mk (some v))) ∧
    (∀ (v : Value) (p : List String),
      getPath (requireSiteMetadata env (ModuleCache.mk (some v))).1 p = getPath v p) :=
  ⟨⟨rfl, rfl⟩, fun _ => rfl, fun _ _ => rfl⟩

/-- Claim C8: environment values are substituted verbatim: whenever one of
the four giscus variables is set to a string s (the empty string included),
the corresponding giscusConfig field equals exactly that string. -/
theorem giscus_env_substituted_verbatim (env : Env) (s : String) :
    (env "NEXT_PUBLIC_GISCUS_REPO" = some s →
      getPath (siteMetadata env) ["comments", "giscusConfig", "repo"] = Value.str s) ∧
    (env "NEXT_PUBLIC_GISCUS_REPOSITORY_ID" = some s →
      getPath (siteMetadata env) ["comments", "giscusConfig", "repositoryId"] = Value.str s) ∧
    (env "NEXT_PUBLIC_GISCUS_CATEGORY" = some s →
      getPath (siteMetadata env) ["comments", "giscusConfig", "category"] = Value.str s) ∧
    (env "NEXT_PUBLIC_GISCUS_CATEGORY_ID" = some s →
      getPath (siteMetadata env) ["comments", "giscusConfig", "categoryId"] = Value.str s) := by
  refine ⟨fun h => ?_, fun h => ?_, fun h => ?_, fun h => ?_⟩
  · have e : getPath (siteMetadata env) ["comments", "giscusConfig", "repo"]
        = envAccess env "NEXT_PUBLIC_GISCUS_REPO" := rfl
    rw [e]; unfold envAccess; rw [h]
  · have e : getPath (siteMetadata env) ["comments", "giscusConfig", "repositoryId"]
        = envAccess env "NEXT_PUBLIC_GISCUS_REPOSITORY_ID" := rfl
    rw [e]; unfold envAccess; rw [h]
  · have e : getPath (siteMetadata env) ["comments", "giscusConfig", "category"]
        = envAccess env "NEXT_PUBLIC_GISCUS_CATEGORY" := rfl
    rw [e]; unfold envAccess; rw [h]
  · have e : getPath (siteMetadata env) ["comments", "giscusConfig", "categoryId"]
        = envAccess env "NEXT_PUBLIC_GISCUS_CATEGORY_ID" := rfl
    rw [e]; unfold envAccess; rw [h]

/-- Witness for claim C8: a concrete environment setting the repo variable
to the empty string yields exactly the empty string in the repo field. -/
theorem giscus_env_substituted_verbatim_witness :
    envEmptyStr "NEXT_PUBLIC_GISCUS_REPO" = some "" ∧
    getPath (siteMetadata envEmptyStr) ["comments", "giscusConfig", "repo"]
      = Value.str "" :=
  ⟨rfl, (giscus_env_substituted_verbatim envEmptyStr "").1 rfl⟩

/-- Claim C9: every field other than the four environment-dependent giscus
fields is the same fixed literal for any two environments (the record with
those four fields scrubbed is environment-independent); in particular
comments.provider is giscus, search.provider is kbar with
search.kbarConfig.searchDocumentsPath equal to search.json, and
newsletter.provider is mailchimp. -/
theorem nonGiscus_fields_constant (e1 e2 : Env) :
    scrubGiscus (siteMetadata e1) = scrubGiscus (siteMetadata e2) ∧
    getPath (siteMetadata e1) ["comments", "provider"] = Value.str "giscus" ∧
    getPath (siteMetadata e1) ["search", "provider"] = Value.str "kbar" ∧
    getPath (siteMetadata e1) ["search", "kbarConfig", "searchDocumentsPath"]
      = Value.str "search.json" ∧
    getPath (siteMetadata e1) ["newsletter", "provider"] = Value.str "mailchimp" :=
  ⟨rfl, rfl, rfl, rfl, rfl⟩

/-- Claim C10: the giscus reaction and metadata toggles are the string
literals for one and zero respectively, and themeURL is the empty string,
for every environment. -/
theorem giscus_toggles_are_string_literals (env : Env) :
    getPath (siteMetadata env) ["comments", "giscusConfig", "reactions"] = Value.str "1" ∧
    getPath (siteMetadata env) ["comments", "giscusConfig", "metadata"] = Value.str "0" ∧
    getPath (siteMetadata env) ["comments", "giscusConfig", "themeURL"] = Value.str "" :=
  ⟨rfl, rfl, rfl⟩
